import Mathlib

/-!
Shallow embedding of the transactional core of the linuxpos repository
(Django models in src/sales/models.py, src/inventory/models.py,
src/customers/models.py), together with proofs of the stated properties.

Modelling conventions:
* Django `DecimalField` values are embedded as `Int` (decimal addition,
  subtraction and multiplication are exact; the fixed scale plays no role
  in any of the properties below).
* A model instance's `pk is not None` / `not self._state.adding` is the
  Boolean field `persisted`.
* The table of `InventoryStock` rows is an association list keyed by
  (branch id, product id); `unique_together = ('branch', 'product')`
  guarantees at most one row per key, and all operations below preserve
  key uniqueness, so lookups and updates act on the single matching row.
* `transaction.atomic` blocks are embedded by threading the state through
  an `Except`: a raised `ValidationError` yields `.error` and the caller
  keeps the unmodified pre-transaction state (full rollback).
* Each operation runs sequentially (the repository has no concurrency
  control beyond row locks; properties here are about the sequential
  semantics of each save/delete).
-/

deriving instance DecidableEq for Except

namespace LinuxPos

/-- products.Product, restricted to the fields the core reads:
the id and `is_inventory_tracked`. -/
structure Product where
  pid : Nat
  is_inventory_tracked : Bool
deriving DecidableEq

/-- Key of an inventory.InventoryStock row: (branch, product),
`unique_together` in the source. -/
structure StockKey where
  branch : Nat
  product : Nat
deriving DecidableEq

/-- The InventoryStock table: rows (key, quantity). -/
abbrev StockDB := List (StockKey × Int)

/-- `InventoryStock.objects.get(branch=..., product=...)`, returning the
quantity of the row if it exists. -/
def stockLookup (db : StockDB) (k : StockKey) : Option Int :=
  (db.find? (fun p => p.1 == k)).map Prod.snd

/-- `stock_item.quantity = q; stock_item.save()` on an existing row. -/
def stockUpdate (db : StockDB) (k : StockKey) (q : Int) : StockDB :=
  db.map (fun p => if p.1 == k then (k, q) else p)

/-- Row creation as performed by `get_or_create` when no row exists. -/
def stockCreate (db : StockDB) (k : StockKey) (q : Int) : StockDB :=
  db ++ [(k, q)]

/-- Sale.SaleStatus choices. -/
inductive SaleStatus
  | PENDING
  | COMPLETED
  | CANCELLED
  | REFUNDED
deriving DecidableEq

/-- Sale.PaymentType choices. -/
inductive PaymentType
  | CASH
  | CARD
  | MOBILE_WALLET
  | BANK_TRANSFER
  | ON_ACCOUNT
  | VOUCHER
  | OTHER
deriving DecidableEq

/-- sales.SaleItem: one line of a sale. -/
structure SaleItemRec where
  product : Product
  quantity : Int
  unit_price_at_sale : Int
  discount_amount_item : Int
  total_price : Int
deriving DecidableEq

/-- The computation in SaleItem.save (src/sales/models.py line 175):
`self.total_price = (self.quantity * self.unit_price_at_sale) - self.discount_amount_item`. -/
def saleItemSave (it : SaleItemRec) : SaleItemRec :=
  { it with total_price := it.quantity * it.unit_price_at_sale - it.discount_amount_item }

/-- sales.Sale, restricted to the fields the save path reads or writes.
`customer` and `payment_type` are the fields declared by migration
0004 and the initial migration (see `saleSaveWithLedger` below).
`original_status` embeds the in-memory `_original_status` tracker. -/
structure Sale where
  persisted : Bool
  branch : Nat
  customer : Option Nat
  status : SaleStatus
  original_status : SaleStatus
  sub_total : Int
  discount_amount : Int
  tax_amount : Int
  grand_total : Int
  payment_type : Option PaymentType
  stock_deducted : Bool
deriving DecidableEq

/-- Sale.update_calculated_fields (src/sales/models.py lines 72-78): sum the
persisted lines' `total_price` (a sale without a pk has no persisted lines
and gets a zero subtotal), then `grand_total = (sub_total - discount_amount) + tax_amount`.
`items` is the list of SaleItem rows whose FK is this sale. -/
def update_calculated_fields (s : Sale) (items : List SaleItemRec) : Sale :=
  let st := if s.persisted then (items.map (fun it => it.total_price)).sum else 0
  { s with sub_total := st, grand_total := st - s.discount_amount + s.tax_amount }

/-- One iteration of the loop in Sale._perform_stock_deduction
(src/sales/models.py lines 85-113): skip non-tracked products; if the row
exists, fail when `quantity < item.quantity`, else subtract; if no row
exists, fail exactly when `item.quantity > 0`. -/
def deductItem (branch : Nat) (db : StockDB) (it : SaleItemRec) : Except String StockDB :=
  if it.product.is_inventory_tracked = false then .ok db
  else
    match stockLookup db ⟨branch, it.product.pid⟩ with
    | some q =>
        if q < it.quantity then .error "Insufficient stock"
        else .ok (stockUpdate db ⟨branch, it.product.pid⟩ (q - it.quantity))
    | none =>
        if 0 < it.quantity then .error "No stock record (implies 0 stock)"
        else .ok db

/-- The `for item in self.items.all()` loop of Sale._perform_stock_deduction:
lines are processed in order, each against the stock state left by the
previous ones; the first failing line aborts the whole operation. -/
def deductItems (branch : Nat) (db : StockDB) : List SaleItemRec → Except String StockDB
  | [] => .ok db
  | it :: rest =>
      match deductItem branch db it with
      | .error e => .error e
      | .ok db2 => deductItems branch db2 rest

/-- Sale._perform_stock_deduction (src/sales/models.py lines 80-114): the
`if not self.pk: return` guard makes the whole body, including the final
`self.stock_deducted = True`, a no-op on an unsaved sale. -/
def perform_stock_deduction (s : Sale) (items : List SaleItemRec) (db : StockDB) :
    Except String (Sale × StockDB) :=
  if s.persisted = false then .ok (s, db)
  else
    match deductItems s.branch db items with
    | .error e => .error e
    | .ok db2 => .ok ({ s with stock_deducted := true }, db2)

/-- One iteration of the loop in Sale._perform_stock_reversal
(src/sales/models.py lines 121-132): skip non-tracked products; otherwise
`get_or_create` the row with default quantity 0 and add the line quantity. -/
def restockItem (branch : Nat) (db : StockDB) (it : SaleItemRec) : StockDB :=
  if it.product.is_inventory_tracked = false then db
  else
    match stockLookup db ⟨branch, it.product.pid⟩ with
    | some q => stockUpdate db ⟨branch, it.product.pid⟩ (q + it.quantity)
    | none => stockCreate db ⟨branch, it.product.pid⟩ (0 + it.quantity)

/-- Sale._perform_stock_reversal (src/sales/models.py lines 116-133), with
its own `if not self.pk: return` guard; on a persisted sale it restocks
every line and clears `stock_deducted`. -/
def perform_stock_reversal (s : Sale) (items : List SaleItemRec) (db : StockDB) :
    Sale × StockDB :=
  if s.persisted = false then (s, db)
  else ({ s with stock_deducted := false }, items.foldl (restockItem s.branch) db)

/-- The effect of `super().save()` followed by
`self._original_status = self.status` (pk gets assigned, the tracker is
refreshed). -/
def commitSale (s : Sale) : Sale :=
  { s with persisted := true, original_status := s.status }

/-- Sale.save (src/sales/models.py lines 135-160). Totals are recomputed
first; then the deduction branch fires when (new or status changed) and the
status is COMPLETED and stock was not deducted; the reversal branch fires
when the status changed away from COMPLETED with stock deducted; otherwise
a plain save. A ValidationError from the deduction aborts the enclosing
`transaction.atomic`, yielding `.error`. -/
def saleSave (s0 : Sale) (items : List SaleItemRec) (db : StockDB) :
    Except String (Sale × StockDB) :=
  let s := update_calculated_fields s0 items
  if (s.persisted = false ∧ s.status = SaleStatus.COMPLETED ∧ s.stock_deducted = false) ∨
     (s.original_status ≠ s.status ∧ s.status = SaleStatus.COMPLETED ∧ s.stock_deducted = false) then
    match perform_stock_deduction s items db with
    | .error e => .error e
    | .ok (s2, db2) => .ok (commitSale s2, db2)
  else if s.original_status ≠ s.status ∧ s.original_status = SaleStatus.COMPLETED ∧
          s.stock_deducted = true then
    let r := perform_stock_reversal s items db
    .ok (commitSale r.1, r.2)
  else
    .ok (commitSale s, db)

/-- The persisted state after an attempted Sale.save: on success the
committed sale row and stock table, on a ValidationError the rollback of
`transaction.atomic` leaves both exactly as they were. -/
def saleSaveFinal (s : Sale) (items : List SaleItemRec) (db : StockDB) :
    Sale × StockDB :=
  match saleSave s items db with
  | .ok r => r
  | .error _ => (s, db)

/-- The sequential insufficiency condition of the deduction loop: some
inventory-tracked line finds, at its turn, either an existing row whose
level is strictly below the line quantity, or no row while the quantity is
strictly positive (absence counts as zero stock). Earlier lines' successful
deductions are applied before later lines are checked, exactly as the loop
does. -/
def insufficientFor (branch : Nat) (db : StockDB) : List SaleItemRec → Bool
  | [] => false
  | it :: rest =>
      if it.product.is_inventory_tracked = false then insufficientFor branch db rest
      else
        match stockLookup db ⟨branch, it.product.pid⟩ with
        | some q =>
            if q < it.quantity then true
            else insufficientFor branch (stockUpdate db ⟨branch, it.product.pid⟩ (q - it.quantity)) rest
        | none =>
            if 0 < it.quantity then true else insufficientFor branch db rest

/-- GoodsReceiveNote.GRNStatus choices. -/
inductive GRNStatus
  | PENDING
  | COMPLETED
  | CANCELLED
deriving DecidableEq

/-- inventory.GRNItem: one line of a goods receive note. -/
structure GRNItemRec where
  product : Product
  quantity_received : Int
  cost_price_per_unit : Int
deriving DecidableEq

/-- inventory.GoodsReceiveNote, restricted to the fields its save path
reads or writes; `original_status` embeds `_original_status`. -/
structure GRN where
  persisted : Bool
  branch : Nat
  status : GRNStatus
  original_status : GRNStatus
deriving DecidableEq

/-- One iteration of the loop in GoodsReceiveNote.process_stock_update
(src/inventory/models.py lines 85-95): skip non-tracked products;
`get_or_create` the row with default quantity 0, then add `quantity_received`. -/
def grnProcessItem (branch : Nat) (db : StockDB) (it : GRNItemRec) : StockDB :=
  if it.product.is_inventory_tracked = false then db
  else
    match stockLookup db ⟨branch, it.product.pid⟩ with
    | some q => stockUpdate db ⟨branch, it.product.pid⟩ (q + it.quantity_received)
    | none => stockCreate db ⟨branch, it.product.pid⟩ (0 + it.quantity_received)

/-- GoodsReceiveNote.process_stock_update (src/inventory/models.py lines
76-99): silently returns unless the GRN status is COMPLETED. -/
def process_stock_update (g : GRN) (items : List GRNItemRec) (db : StockDB) : StockDB :=
  if g.status ≠ GRNStatus.COMPLETED then db
  else items.foldl (grnProcessItem g.branch) db

/-- One iteration of the loop in GoodsReceiveNote.revert_stock_update
(src/inventory/models.py lines 110-124): skip non-tracked products;
subtract from an existing row; a missing row is silently passed over. -/
def grnRevertItem (branch : Nat) (db : StockDB) (it : GRNItemRec) : StockDB :=
  if it.product.is_inventory_tracked = false then db
  else
    match stockLookup db ⟨branch, it.product.pid⟩ with
    | some q => stockUpdate db ⟨branch, it.product.pid⟩ (q - it.quantity_received)
    | none => db

/-- GoodsReceiveNote.revert_stock_update (src/inventory/models.py lines 101-124). -/
def revert_stock_update (g : GRN) (items : List GRNItemRec) (db : StockDB) : StockDB :=
  items.foldl (grnRevertItem g.branch) db

/-- GoodsReceiveNote.save (src/inventory/models.py lines 127-154): the GRN
row is saved first (pk assigned), then: if the status changed, process on
entering COMPLETED and revert on leaving COMPLETED; if the status did not
change but the GRN is new and COMPLETED, process; otherwise no stock
effect. Finally `_original_status` is refreshed. -/
def grnSave (g : GRN) (items : List GRNItemRec) (db : StockDB) : GRN × StockDB :=
  let g2 : GRN := { g with persisted := true }
  let db2 :=
    if g.original_status ≠ g.status then
      if g.status = GRNStatus.COMPLETED then process_stock_update g2 items db
      else if g.original_status = GRNStatus.COMPLETED ∧ g.status ≠ GRNStatus.COMPLETED then
        revert_stock_update g2 items db
      else db
    else if g.persisted = false ∧ g.status = GRNStatus.COMPLETED then
      process_stock_update g2 items db
    else db
  ({ g2 with original_status := g.status }, db2)

/-- customers.CustomerLedgerEntry.EntryType choices. -/
inductive EntryType
  | SALE_INVOICE
  | PAYMENT_RECEIVED
  | CREDIT_NOTE
  | DEBIT_NOTE
  | OPENING_BALANCE
deriving DecidableEq

/-- customers.Customer, with every stored field the model declares (the
FK and text fields as ids/strings, decimals as Int). -/
structure Customer where
  company_owner : Nat
  name : String
  email : Option String
  phone_number : Option String
  address : Option String
  can_purchase_on_credit : Bool
  credit_limit : Int
  current_balance : Int
  tax_id : Option String
  notes : Option String
deriving DecidableEq

/-- customers.CustomerLedgerEntry as stored: the pk `eid`, the type and
the two (non-null after save) amounts. -/
structure LedgerEntryRec where
  eid : Nat
  entry_type : EntryType
  debit_amount : Int
  credit_amount : Int
deriving DecidableEq

/-- One customer's view of the database: the customer row, the list of that
customer's ledger entries (pk-keyed; pks are unique, and every update or
delete below touches the single matching row), and the next pk the
database will assign. -/
structure CustomerLedgerState where
  customer : Customer
  entries : List LedgerEntryRec
  next_id : Nat
deriving DecidableEq

/-- The balance write shared by CustomerLedgerEntry.save and .delete
(src/customers/models.py lines 102-107 and 122-126): it happens only when
the change is non-zero, and then writes the customer row with
`update_fields=['current_balance']` only. The returned Bool records
whether the customer row was written. -/
def applyBalanceChange (c : Customer) (change : Int) : Customer × Bool :=
  if change ≠ 0 then ({ c with current_balance := c.current_balance + change }, true)
  else (c, false)

/-- CustomerLedgerEntry.save on a new entry (src/customers/models.py lines
77-111, `is_new` branch): `None` amounts default to 0, the entry row is
inserted, and the balance changes by `debit - credit`. -/
def ledgerPost (st : CustomerLedgerState) (etype : EntryType) (d cr : Option Int) :
    CustomerLedgerState × Bool :=
  let current_debit := d.getD 0
  let current_credit := cr.getD 0
  let balance_change := current_debit - current_credit
  let entry : LedgerEntryRec := ⟨st.next_id, etype, current_debit, current_credit⟩
  let p := applyBalanceChange st.customer balance_change
  (⟨p.1, st.entries ++ [entry], st.next_id + 1⟩, p.2)

/-- Update of the single row with the given pk, as `super().save()` does
for an existing entry (the pk is unique, hence first match = only match). -/
def replaceEntry (eid : Nat) (d cr : Int) : List LedgerEntryRec → List LedgerEntryRec
  | [] => []
  | e :: rest =>
      if e.eid == eid then { e with debit_amount := d, credit_amount := cr } :: rest
      else e :: replaceEntry eid d cr rest

/-- Deletion of the single row with the given pk, as `super().delete()` does. -/
def removeEntry (eid : Nat) : List LedgerEntryRec → List LedgerEntryRec
  | [] => []
  | e :: rest => if e.eid == eid then rest else e :: removeEntry eid rest

/-- CustomerLedgerEntry.save on an existing entry (src/customers/models.py
lines 77-111, else branch): `_original_debit_amount`/`_original_credit_amount`
were loaded from the stored row in `__init__`, so the balance changes by
`(debit - original_debit) - (credit - original_credit)` relative to the
stored amounts. An id with no stored row is modelled as a no-op. -/
def ledgerEdit (st : CustomerLedgerState) (eid : Nat) (d cr : Option Int) :
    CustomerLedgerState × Bool :=
  match st.entries.find? (fun e => e.eid == eid) with
  | none => (st, false)
  | some old =>
      let current_debit := d.getD 0
      let current_credit := cr.getD 0
      let balance_change :=
        (current_debit - old.debit_amount) - (current_credit - old.credit_amount)
      let p := applyBalanceChange st.customer balance_change
      (⟨p.1, replaceEntry eid current_debit current_credit st.entries, st.next_id⟩, p.2)

/-- CustomerLedgerEntry.delete (src/customers/models.py lines 113-126):
the row is removed and the balance changes by `credit - debit` of the
stored amounts. An id with no stored row is modelled as a no-op. -/
def ledgerDelete (st : CustomerLedgerState) (eid : Nat) : CustomerLedgerState × Bool :=
  match st.entries.find? (fun e => e.eid == eid) with
  | none => (st, false)
  | some old =>
      let balance_reversal := old.credit_amount - old.debit_amount
      let p := applyBalanceChange st.customer balance_reversal
      (⟨p.1, removeEntry eid st.entries, st.next_id⟩, p.2)

/-- One ledger operation: a post of a new entry, an edit of an existing
entry's amounts, or a delete. -/
inductive LedgerOp
  | post (etype : EntryType) (d cr : Option Int)
  | edit (eid : Nat) (d cr : Option Int)
  | del (eid : Nat)

/-- Apply one ledger operation to the customer's state. -/
def applyLedgerOp (st : CustomerLedgerState) : LedgerOp → CustomerLedgerState
  | .post etype d cr => (ledgerPost st etype d cr).1
  | .edit eid d cr => (ledgerEdit st eid d cr).1
  | .del eid => (ledgerDelete st eid).1

/-- Apply a sequence of ledger operations in order. -/
def applyLedgerOps (st : CustomerLedgerState) (ops : List LedgerOp) : CustomerLedgerState :=
  ops.foldl applyLedgerOp st

/-- Sum of `debit_amount - credit_amount` over a list of ledger entries. -/
def entriesNet (es : List LedgerEntryRec) : Int :=
  (es.map (fun e => e.debit_amount - e.credit_amount)).sum

/-- The ledger balance invariant: the stored customer balance equals the
net of the customer's surviving entries. -/
abbrev BalanceInvariant (st : CustomerLedgerState) : Prop :=
  st.customer.current_balance = entriesNet st.entries

/-- Equality of two customer rows on every stored field except
`current_balance`. -/
abbrev SameExceptBalance (a b : Customer) : Prop :=
  b.company_owner = a.company_owner ∧ b.name = a.name ∧ b.email = a.email ∧
  b.phone_number = a.phone_number ∧ b.address = a.address ∧
  b.can_purchase_on_credit = a.can_purchase_on_credit ∧
  b.credit_limit = a.credit_limit ∧ b.tax_id = a.tax_id ∧ b.notes = a.notes

/-- Modelled from the spec: the ledger-posting step of the Sale save path.
What is missing from src/: src/sales/models.py predates sales migration
0004 (which adds the `customer` foreign key to Sale) and
src/sales/admin.py (which states that the logic to create a
CustomerLedgerEntry for ON_ACCOUNT sales is in the Sale model's save
method); the current Sale.save of the repository is therefore not under
src/. Per the spec: only after stock deduction succeeds does the sale
persist and, if `paymentType = OnAccount` and a customer is set, an
Invoice-type entry for `grandTotal` is posted against that customer
(debit side) in the same transaction; the posting itself is the
CustomerLedgerEntry.save embedding `ledgerPost` above, which is in src/.
`led` is the state of the sale's customer when one is set. -/
def saleSaveWithLedger (s0 : Sale) (items : List SaleItemRec) (db : StockDB)
    (led : CustomerLedgerState) : Except String (Sale × StockDB × CustomerLedgerState) :=
  let s := update_calculated_fields s0 items
  if (s.persisted = false ∧ s.status = SaleStatus.COMPLETED ∧ s.stock_deducted = false) ∨
     (s.original_status ≠ s.status ∧ s.status = SaleStatus.COMPLETED ∧ s.stock_deducted = false) then
    match perform_stock_deduction s items db with
    | .error e => .error e
    | .ok (s2, db2) =>
        let led2 :=
          if s2.payment_type = some PaymentType.ON_ACCOUNT ∧ s2.customer ≠ none then
            (ledgerPost led EntryType.SALE_INVOICE (some s2.grand_total) none).1
          else led
        .ok (commitSale s2, db2, led2)
  else if s.original_status ≠ s.status ∧ s.original_status = SaleStatus.COMPLETED ∧
          s.stock_deducted = true then
    let r := perform_stock_reversal s items db
    .ok (commitSale r.1, r.2, led)
  else
    .ok (commitSale s, db, led)

/-- Concrete ledger state: customer with balance 0 and no entries. -/
def exCustomer : Customer :=
  ⟨3, "Ada", none, none, none, true, 1000, 0, none, none⟩

/-- Concrete ledger state used to instantiate the ledger theorems. -/
def exLedgerState : CustomerLedgerState :=
  ⟨exCustomer, [], 0⟩

/-- Concrete operation sequence: post an invoice of 50, edit it down to 30,
then delete it. -/
def exLedgerOps : List LedgerOp :=
  [LedgerOp.post EntryType.SALE_INVOICE (some 50) none,
   LedgerOp.edit 0 (some 30) (some 0),
   LedgerOp.del 0]

/-- Concrete ledger state with one stored entry (debit 7, credit 2). -/
def exLedgerState2 : CustomerLedgerState :=
  ⟨{ exCustomer with current_balance := 5 },
   [⟨0, EntryType.SALE_INVOICE, 7, 2⟩], 1⟩

/-- Concrete inventory-tracked product. -/
def prodTracked : Product := ⟨1, true⟩

/-- Concrete product not marked for inventory tracking. -/
def prodUntracked : Product := ⟨2, false⟩

/-- Concrete persisted sale transitioning PENDING to COMPLETED. -/
def exSaleC2 : Sale :=
  ⟨true, 0, none, SaleStatus.COMPLETED, SaleStatus.PENDING, 0, 0, 0, 0, none, false⟩

/-- Concrete line: 5 tracked units against a stock level of 3. -/
def exItemC2 : SaleItemRec := ⟨prodTracked, 5, 10, 0, 50⟩

/-- Concrete stock table holding 3 units at branch 0. -/
def exDbC2 : StockDB := [(⟨0, 1⟩, 3)]

/-- Concrete brand-new sale created directly with status COMPLETED. -/
def c4NewSale : Sale :=
  ⟨false, 0, none, SaleStatus.COMPLETED, SaleStatus.COMPLETED, 0, 0, 0, 0, none, false⟩

/-- Concrete line with a stored total of 45 (2 * 25 - 5). -/
def exItemC5 : SaleItemRec := ⟨prodTracked, 2, 25, 5, 45⟩

/-- Concrete persisted sale saved without a status transition. -/
def exSaleC5 : Sale :=
  ⟨true, 0, none, SaleStatus.PENDING, SaleStatus.PENDING, 0, 3, 7, 0, none, false⟩

/-- The sale row `exSaleC5` commits to: subTotal 45, grandTotal 45 - 3 + 7. -/
def c5OutSale : Sale :=
  ⟨true, 0, none, SaleStatus.PENDING, SaleStatus.PENDING, 45, 3, 7, 49, none, false⟩

/-- Concrete persisted sale entering COMPLETED with one negative line. -/
def c9Sale : Sale :=
  ⟨true, 0, none, SaleStatus.COMPLETED, SaleStatus.PENDING, 0, 0, 0, 0, none, false⟩

/-- Concrete tracked line with negative quantity -3. -/
def c9Item : SaleItemRec := ⟨prodTracked, -3, 10, 0, -30⟩

/-- Concrete stock table with a zero-level row for the tracked product. -/
def c9DbZero : StockDB := [(⟨0, 1⟩, 0)]

/-- The sale row `c9Sale` commits to. -/
def c9OutSale : Sale :=
  ⟨true, 0, none, SaleStatus.COMPLETED, SaleStatus.COMPLETED, -30, 0, 0, -30, none, true⟩

/-- Concrete ON_ACCOUNT credit sale for customer 7 entering COMPLETED. -/
def c3Sale : Sale :=
  ⟨true, 0, some 7, SaleStatus.COMPLETED, SaleStatus.PENDING, 0, 0, 0, 0,
   some PaymentType.ON_ACCOUNT, false⟩

/-- Concrete line worth 50 (2 * 25). -/
def c3Item : SaleItemRec := ⟨prodTracked, 2, 25, 0, 50⟩

/-- Concrete stock table with 10 units available. -/
def c3Db : StockDB := [(⟨0, 1⟩, 10)]

/-- The sale row `c3Sale` commits to: grandTotal 50, stock deducted. -/
def c3OutSale : Sale :=
  ⟨true, 0, some 7, SaleStatus.COMPLETED, SaleStatus.COMPLETED, 50, 0, 0, 50,
   some PaymentType.ON_ACCOUNT, true⟩

/-- The stock table after deducting 2 from 10. -/
def c3OutDb : StockDB := [(⟨0, 1⟩, 8)]

/-- Sale and GRN lines whose product is not inventory-tracked. -/
def c8SaleItem : SaleItemRec := ⟨prodUntracked, 5, 10, 0, 50⟩

/-- GRN line whose product is not inventory-tracked. -/
def c8GRNItem : GRNItemRec := ⟨prodUntracked, 5, 2⟩

/-- The ledger state of customer 7 after the invoice for `c3Sale` posts. -/
def c3OutLed : CustomerLedgerState :=
  ⟨{ exCustomer with current_balance := 50 }, [⟨0, EntryType.SALE_INVOICE, 50, 0⟩], 1⟩

/-- Concrete persisted GRN transitioning PENDING to COMPLETED. -/
def c6GRN : GRN := ⟨true, 0, GRNStatus.COMPLETED, GRNStatus.PENDING⟩

/-- Concrete GRN line: 5 tracked units at cost 2. -/
def c6Item : GRNItemRec := ⟨prodTracked, 5, 2⟩

/-- Concrete completed GRN being cancelled (COMPLETED to CANCELLED). -/
def c6RevGRN : GRN := ⟨true, 0, GRNStatus.CANCELLED, GRNStatus.COMPLETED⟩

/-- Concrete pending GRN cancelled directly (PENDING to CANCELLED). -/
def c6NoopGRN : GRN := ⟨true, 0, GRNStatus.CANCELLED, GRNStatus.PENDING⟩

/-- Concrete stock table with 9 units of the tracked product. -/
def c6Db2 : StockDB := [(⟨0, 1⟩, 9)]

/-- Concrete stock table holding a row only for the non-tracked product. -/
def c8Db : StockDB := [(⟨0, 2⟩, 4)]

theorem entriesNet_nil : entriesNet [] = 0 := rfl

theorem entriesNet_cons (e : LedgerEntryRec) (es : List LedgerEntryRec) :
    entriesNet (e :: es) = (e.debit_amount - e.credit_amount) + entriesNet es := by
  simp [entriesNet]

theorem entriesNet_append (es : List LedgerEntryRec) (e : LedgerEntryRec) :
    entriesNet (es ++ [e]) = entriesNet es + (e.debit_amount - e.credit_amount) := by
  simp [entriesNet]

theorem applyBalanceChange_balance (c : Customer) (x : Int) :
    (applyBalanceChange c x).1.current_balance = c.current_balance + x := by
  by_cases hz : x = 0
  · simp [applyBalanceChange, hz]
  · simp [applyBalanceChange, hz]

theorem entriesNet_replace (eid : Nat) (d cr : Int) :
    ∀ (es : List LedgerEntryRec) (old : LedgerEntryRec),
      es.find? (fun e => e.eid == eid) = some old →
      entriesNet (replaceEntry eid d cr es) =
        entriesNet es - (old.debit_amount - old.credit_amount) + (d - cr)
  | [], old, h => by simp at h
  | e :: rest, old, h => by
      by_cases hb : (e.eid == eid) = true
      · simp only [List.find?, hb] at h
        injection h with h2
        subst h2
        simp only [replaceEntry, hb, if_true, entriesNet_cons]
        omega
      · rw [Bool.not_eq_true] at hb
        simp only [List.find?, hb] at h
        have ih := entriesNet_replace eid d cr rest old h
        simp only [replaceEntry, hb, Bool.false_eq_true, if_false, entriesNet_cons]
        omega

theorem entriesNet_remove (eid : Nat) :
    ∀ (es : List LedgerEntryRec) (old : LedgerEntryRec),
      es.find? (fun e => e.eid == eid) = some old →
      entriesNet (removeEntry eid es) =
        entriesNet es - (old.debit_amount - old.credit_amount)
  | [], old, h => by simp at h
  | e :: rest, old, h => by
      by_cases hb : (e.eid == eid) = true
      · simp only [List.find?, hb] at h
        injection h with h2
        subst h2
        simp only [removeEntry, hb, if_true, entriesNet_cons]
        omega
      · rw [Bool.not_eq_true] at hb
        simp only [List.find?, hb] at h
        have ih := entriesNet_remove eid rest old h
        simp only [removeEntry, hb, Bool.false_eq_true, if_false, entriesNet_cons]
        omega

theorem applyLedgerOp_invariant (st : CustomerLedgerState) (op : LedgerOp)
    (h : BalanceInvariant st) : BalanceInvariant (applyLedgerOp st op) := by
  cases op with
  | post etype d cr =>
      show (applyBalanceChange st.customer (d.getD 0 - cr.getD 0)).1.current_balance =
        entriesNet (st.entries ++ [⟨st.next_id, etype, d.getD 0, cr.getD 0⟩])
      rw [applyBalanceChange_balance, entriesNet_append]
      dsimp only
      simp only [BalanceInvariant] at h
      omega
  | edit eid d cr =>
      cases hf : st.entries.find? (fun e => e.eid == eid) with
      | none => simpa [applyLedgerOp, ledgerEdit, hf] using h
      | some old =>
          have hrepl := entriesNet_replace eid (d.getD 0) (cr.getD 0) st.entries old hf
          have hbody : applyLedgerOp st (LedgerOp.edit eid d cr) =
              ⟨(applyBalanceChange st.customer
                  ((d.getD 0 - old.debit_amount) - (cr.getD 0 - old.credit_amount))).1,
               replaceEntry eid (d.getD 0) (cr.getD 0) st.entries, st.next_id⟩ := by
            simp [applyLedgerOp, ledgerEdit, hf]
          rw [BalanceInvariant, hbody]
          show (applyBalanceChange st.customer
              ((d.getD 0 - old.debit_amount) - (cr.getD 0 - old.credit_amount))).1.current_balance =
            entriesNet (replaceEntry eid (d.getD 0) (cr.getD 0) st.entries)
          rw [applyBalanceChange_balance]
          simp only [BalanceInvariant] at h
          omega
  | del eid =>
      cases hf : st.entries.find? (fun e => e.eid == eid) with
      | none => simpa [applyLedgerOp, ledgerDelete, hf] using h
      | some old =>
          have hrem := entriesNet_remove eid st.entries old hf
          have hbody : applyLedgerOp st (LedgerOp.del eid) =
              ⟨(applyBalanceChange st.customer
                  (old.credit_amount - old.debit_amount)).1,
               removeEntry eid st.entries, st.next_id⟩ := by
            simp [applyLedgerOp, ledgerDelete, hf]
          rw [BalanceInvariant, hbody]
          show (applyBalanceChange st.customer
              (old.credit_amount - old.debit_amount)).1.current_balance =
            entriesNet (removeEntry eid st.entries)
          rw [applyBalanceChange_balance]
          simp only [BalanceInvariant] at h
          omega

theorem applyLedgerOps_invariant (ops : List LedgerOp) :
    ∀ (st : CustomerLedgerState), BalanceInvariant st →
      BalanceInvariant (applyLedgerOps st ops) := by
  induction ops with
  | nil => intro st h; exact h
  | cons op rest ih =>
      intro st h
      exact ih (applyLedgerOp st op) (applyLedgerOp_invariant st op h)

/-- Claim C1: for every customer, after any sequence of ledger-entry posts
(save on new entries), edits (save on existing entries with changed
amounts) and deletes, the stored `current_balance` equals the sum of
`debit_amount` minus the sum of `credit_amount` over the surviving
entries; each single operation preserves this equality exactly. -/
theorem c1_ledger_balance_invariant :
    (∀ (st : CustomerLedgerState) (op : LedgerOp), BalanceInvariant st →
        BalanceInvariant (applyLedgerOp st op)) ∧
    (∀ (st : CustomerLedgerState) (ops : List LedgerOp), BalanceInvariant st →
        BalanceInvariant (applyLedgerOps st ops)) :=
  ⟨applyLedgerOp_invariant, fun st ops h => applyLedgerOps_invariant ops st h⟩

theorem c1_ledger_balance_invariant_witness :
    BalanceInvariant exLedgerState ∧
    BalanceInvariant (applyLedgerOps exLedgerState exLedgerOps) :=
  ⟨by decide, c1_ledger_balance_invariant.2 exLedgerState exLedgerOps (by decide)⟩

/-- Claim C10: a ledger-entry save whose computed balance change is zero
(a new entry with debit equal to credit, or an edit leaving the net
debit-minus-credit unchanged) does not write the owning customer row at
all; and every ledger operation changes nothing of the customer row
except possibly `current_balance`. -/
theorem c10_ledger_frame :
    (∀ (st : CustomerLedgerState) (etype : EntryType) (d cr : Option Int),
        d.getD 0 - cr.getD 0 = 0 →
        (ledgerPost st etype d cr).2 = false ∧
        (ledgerPost st etype d cr).1.customer = st.customer) ∧
    (∀ (st : CustomerLedgerState) (eid : Nat) (d cr : Option Int) (old : LedgerEntryRec),
        st.entries.find? (fun e => e.eid == eid) = some old →
        (d.getD 0 - old.debit_amount) - (cr.getD 0 - old.credit_amount) = 0 →
        (ledgerEdit st eid d cr).2 = false ∧
        (ledgerEdit st eid d cr).1.customer = st.customer) ∧
    (∀ (st : CustomerLedgerState) (op : LedgerOp),
        SameExceptBalance st.customer (applyLedgerOp st op).customer) := by
  refine ⟨?_, ?_, ?_⟩
  · intro st etype d cr hz
    simp [ledgerPost, applyBalanceChange, hz]
  · intro st eid d cr old hf hz
    simp [ledgerEdit, hf, applyBalanceChange, hz]
  · intro st op
    have frame : ∀ (c : Customer) (x : Int), SameExceptBalance c (applyBalanceChange c x).1 := by
      intro c x
      by_cases hz : x ≠ 0 <;>
        simp [applyBalanceChange, hz, SameExceptBalance]
    cases op with
    | post etype d cr => exact frame st.customer _
    | edit eid d cr =>
        cases hf : st.entries.find? (fun e => e.eid == eid) with
        | none => simp [applyLedgerOp, ledgerEdit, hf, SameExceptBalance]
        | some old =>
            simp only [applyLedgerOp, ledgerEdit, hf]
            exact frame st.customer _
    | del eid =>
        cases hf : st.entries.find? (fun e => e.eid == eid) with
        | none => simp [applyLedgerOp, ledgerDelete, hf, SameExceptBalance]
        | some old =>
            simp only [applyLedgerOp, ledgerDelete, hf]
            exact frame st.customer _

theorem c10_ledger_frame_witness :
    ((ledgerPost exLedgerState EntryType.PAYMENT_RECEIVED (some 5) (some 5)).2 = false ∧
     (ledgerPost exLedgerState EntryType.PAYMENT_RECEIVED (some 5) (some 5)).1.customer =
       exLedgerState.customer) ∧
    ((ledgerEdit exLedgerState2 0 (some 8) (some 3)).2 = false ∧
     (ledgerEdit exLedgerState2 0 (some 8) (some 3)).1.customer = exLedgerState2.customer) ∧
    SameExceptBalance exLedgerState2.customer
      (applyLedgerOp exLedgerState2 (LedgerOp.del 0)).customer :=
  ⟨c10_ledger_frame.1 exLedgerState EntryType.PAYMENT_RECEIVED (some 5) (some 5) (by decide),
   c10_ledger_frame.2.1 exLedgerState2 0 (some 8) (some 3)
     ⟨0, EntryType.SALE_INVOICE, 7, 2⟩ (by decide) (by decide),
   c10_ledger_frame.2.2 exLedgerState2 (LedgerOp.del 0)⟩

@[simp] theorem ucf_persisted (s : Sale) (items : List SaleItemRec) :
    (update_calculated_fields s items).persisted = s.persisted := rfl

@[simp] theorem ucf_branch (s : Sale) (items : List SaleItemRec) :
    (update_calculated_fields s items).branch = s.branch := rfl

@[simp] theorem ucf_customer (s : Sale) (items : List SaleItemRec) :
    (update_calculated_fields s items).customer = s.customer := rfl

@[simp] theorem ucf_status (s : Sale) (items : List SaleItemRec) :
    (update_calculated_fields s items).status = s.status := rfl

@[simp] theorem ucf_original_status (s : Sale) (items : List SaleItemRec) :
    (update_calculated_fields s items).original_status = s.original_status := rfl

@[simp] theorem ucf_discount_amount (s : Sale) (items : List SaleItemRec) :
    (update_calculated_fields s items).discount_amount = s.discount_amount := rfl

@[simp] theorem ucf_tax_amount (s : Sale) (items : List SaleItemRec) :
    (update_calculated_fields s items).tax_amount = s.tax_amount := rfl

@[simp] theorem ucf_payment_type (s : Sale) (items : List SaleItemRec) :
    (update_calculated_fields s items).payment_type = s.payment_type := rfl

@[simp] theorem ucf_stock_deducted (s : Sale) (items : List SaleItemRec) :
    (update_calculated_fields s items).stock_deducted = s.stock_deducted := rfl

theorem ucf_sub_total (s : Sale) (items : List SaleItemRec) :
    (update_calculated_fields s items).sub_total =
      (if s.persisted then ((items.map fun it => it.total_price).sum : Int) else 0) := rfl

theorem ucf_grand_total (s : Sale) (items : List SaleItemRec) :
    (update_calculated_fields s items).grand_total =
      (update_calculated_fields s items).sub_total - s.discount_amount + s.tax_amount := rfl

@[simp] theorem commitSale_sub_total (s : Sale) : (commitSale s).sub_total = s.sub_total := rfl

@[simp] theorem commitSale_grand_total (s : Sale) : (commitSale s).grand_total = s.grand_total := rfl

@[simp] theorem commitSale_discount_amount (s : Sale) :
    (commitSale s).discount_amount = s.discount_amount := rfl

@[simp] theorem commitSale_tax_amount (s : Sale) : (commitSale s).tax_amount = s.tax_amount := rfl

@[simp] theorem commitSale_status (s : Sale) : (commitSale s).status = s.status := rfl

@[simp] theorem commitSale_stock_deducted (s : Sale) :
    (commitSale s).stock_deducted = s.stock_deducted := rfl

theorem deductItems_error_iff (branch : Nat) :
    ∀ (items : List SaleItemRec) (db : StockDB),
      (∃ e, deductItems branch db items = Except.error e) ↔
        insufficientFor branch db items = true
  | [], db => by simp [deductItems, insufficientFor]
  | it :: rest, db => by
      by_cases ht : it.product.is_inventory_tracked = false
      · simp only [deductItems, deductItem, insufficientFor, ht, if_true]
        exact deductItems_error_iff branch rest db
      · rw [Bool.not_eq_false] at ht
        cases hl : stockLookup db ⟨branch, it.product.pid⟩ with
        | some q =>
            by_cases hq : q < it.quantity
            · simp [deductItems, deductItem, insufficientFor, ht, hl, hq]
            · simp only [deductItems, deductItem, insufficientFor, ht, hl, hq,
                Bool.true_eq_false, if_false, ite_false]
              exact deductItems_error_iff branch rest
                (stockUpdate db ⟨branch, it.product.pid⟩ (q - it.quantity))
        | none =>
            by_cases hq : (0 : Int) < it.quantity
            · simp [deductItems, deductItem, insufficientFor, ht, hl, hq]
            · simp only [deductItems, deductItem, insufficientFor, ht, hl, hq,
                Bool.true_eq_false, if_false, ite_false]
              exact deductItems_error_iff branch rest db

/-- Claim C2: for a persisted sale entering COMPLETED with stock not yet
deducted, if the deduction loop meets an inventory-tracked line whose
quantity exceeds the stock available to it at the sale's branch (absence
of a row counting as zero, per the loop's own sequence of checks), then
Sale.save raises the insufficient-stock ValidationError and commits
nothing: the stored sale row, its totals, its status, the
`stock_deducted` flag (false before, false after) and every StockLevel
row are exactly the pre-save state. -/
theorem c2_insufficient_stock_rejection (s : Sale) (items : List SaleItemRec) (db : StockDB)
    (hp : s.persisted = true)
    (hsc : s.original_status ≠ s.status)
    (hc : s.status = SaleStatus.COMPLETED)
    (hd : s.stock_deducted = false)
    (hins : insufficientFor s.branch db items = true) :
    (∃ e, saleSave s items db = Except.error e) ∧
    saleSaveFinal s items db = (s, db) := by
  obtain ⟨e, herr⟩ := (deductItems_error_iff s.branch items db).mpr hins
  have hcond : ((update_calculated_fields s items).persisted = false ∧
      (update_calculated_fields s items).status = SaleStatus.COMPLETED ∧
      (update_calculated_fields s items).stock_deducted = false) ∨
      ((update_calculated_fields s items).original_status ≠
        (update_calculated_fields s items).status ∧
       (update_calculated_fields s items).status = SaleStatus.COMPLETED ∧
       (update_calculated_fields s items).stock_deducted = false) := by
    right
    refine ⟨?_, ?_, ?_⟩
    · simpa using hsc
    · simpa using hc
    · simpa using hd
  have hpd : perform_stock_deduction (update_calculated_fields s items) items db =
      Except.error e := by
    simp [perform_stock_deduction, hp, herr]
  have hsave : saleSave s items db = Except.error e := by
    simp only [saleSave]
    rw [if_pos hcond, hpd]
  exact ⟨⟨e, hsave⟩, by simp [saleSaveFinal, hsave]⟩

theorem c2_insufficient_stock_rejection_witness :
    (exSaleC2.persisted = true ∧ exSaleC2.original_status ≠ exSaleC2.status ∧
     exSaleC2.status = SaleStatus.COMPLETED ∧ exSaleC2.stock_deducted = false ∧
     insufficientFor exSaleC2.branch exDbC2 [exItemC2] = true) ∧
    (∃ e, saleSave exSaleC2 [exItemC2] exDbC2 = Except.error e) ∧
    saleSaveFinal exSaleC2 [exItemC2] exDbC2 = (exSaleC2, exDbC2) :=
  ⟨⟨by decide, by decide, by decide, by decide, by decide⟩,
   c2_insufficient_stock_rejection exSaleC2 [exItemC2] exDbC2
     (by decide) (by decide) (by decide) (by decide) (by decide)⟩

/-- Claim C7: the deduction loop raises the insufficient-stock error
exactly when some inventory-tracked line finds, at its turn, an existing
(branch, product) stock level strictly below the line quantity, or no
stock row while the quantity is strictly positive (absence treated as
zero); `insufficientFor` skips non-tracked lines, so they never cause the
error. -/
theorem c7_deduction_error_characterization (branch : Nat) (db : StockDB)
    (items : List SaleItemRec) :
    (∃ e, deductItems branch db items = Except.error e) ↔
      insufficientFor branch db items = true :=
  deductItems_error_iff branch items db

/-- Claim C4 (code bug witness): a brand-new sale created directly with
status COMPLETED takes the deduction branch of Sale.save, but the
`if not self.pk: return` guard of _perform_stock_deduction makes it a
silent no-op: the sale persists as COMPLETED while `stock_deducted`
remains false, contradicting the claim that the deduction fires and the
flag becomes true on every "enter Completed" save. -/
theorem c4_new_completed_sale_flag_stays_false :
    saleSave c4NewSale [] [] = Except.ok ({ c4NewSale with persisted := true }, []) ∧
    (saleSaveFinal c4NewSale [] []).1.stock_deducted = false ∧
    (saleSaveFinal c4NewSale [] []).1.status = SaleStatus.COMPLETED ∧
    (saleSaveFinal c4NewSale [] []).1.persisted = true := by
  decide

theorem perform_stock_deduction_ok_fst (s : Sale) (items : List SaleItemRec) (db : StockDB)
    (s2 : Sale) (db2 : StockDB)
    (h : perform_stock_deduction s items db = Except.ok (s2, db2)) :
    s2 = s ∨ s2 = { s with stock_deducted := true } := by
  unfold perform_stock_deduction at h
  by_cases hp : s.persisted = false
  · rw [if_pos hp] at h
    simp at h
    left
    exact h.1.symm
  · rw [if_neg hp] at h
    cases hdd : deductItems s.branch db items with
    | error e => rw [hdd] at h; simp at h
    | ok dbx =>
        rw [hdd] at h
        simp at h
        right
        exact h.1.symm

theorem perform_stock_reversal_fst (s : Sale) (items : List SaleItemRec) (db : StockDB) :
    (perform_stock_reversal s items db).1 = s ∨
    (perform_stock_reversal s items db).1 = { s with stock_deducted := false } := by
  unfold perform_stock_reversal
  by_cases hp : s.persisted = false
  · rw [if_pos hp]; left; rfl
  · rw [if_neg hp]; right; rfl

theorem saleSave_ok_totals (s : Sale) (items : List SaleItemRec) (db : StockDB)
    (s2 : Sale) (db2 : StockDB) (h : saleSave s items db = Except.ok (s2, db2)) :
    s2.sub_total = (update_calculated_fields s items).sub_total ∧
    s2.grand_total = (update_calculated_fields s items).grand_total ∧
    s2.discount_amount = s.discount_amount ∧
    s2.tax_amount = s.tax_amount := by
  simp only [saleSave] at h
  split at h
  · cases hpd : perform_stock_deduction (update_calculated_fields s items) items db with
    | error e => rw [hpd] at h; simp at h
    | ok p =>
        obtain ⟨a, b⟩ := p
        rw [hpd] at h
        simp at h
        obtain ⟨ha, hb⟩ := h
        rcases perform_stock_deduction_ok_fst (update_calculated_fields s items) items db a b
          hpd with h2 | h2 <;> subst h2 <;> rw [← ha] <;> simp
  · split at h
    · simp at h
      obtain ⟨ha, hb⟩ := h
      rcases perform_stock_reversal_fst (update_calculated_fields s items) items db
        with h2 | h2 <;> rw [← ha, h2] <;> simp
    · simp at h
      obtain ⟨ha, hb⟩ := h
      rw [← ha]
      simp

/-- Claim C5: a saved sale line's stored total is quantity times unit
price at sale minus the item discount; every Sale.save recomputes a
sub_total equal to the sum of the stored totals of the persisted lines
(zero for a sale without a pk) and a grand_total equal to
(sub_total - discount_amount) + tax_amount, and a successful save commits
exactly these recomputed totals. -/
theorem c5_totals (it : SaleItemRec) (s : Sale) (items : List SaleItemRec) (db : StockDB) :
    (saleItemSave it).total_price =
      it.quantity * it.unit_price_at_sale - it.discount_amount_item ∧
    (update_calculated_fields s items).sub_total =
      (if s.persisted then ((items.map fun i => i.total_price).sum : Int) else 0) ∧
    (update_calculated_fields s items).grand_total =
      ((update_calculated_fields s items).sub_total - s.discount_amount) + s.tax_amount ∧
    (∀ (s2 : Sale) (db2 : StockDB), saleSave s items db = Except.ok (s2, db2) →
      s2.sub_total = (update_calculated_fields s items).sub_total ∧
      s2.grand_total = (s2.sub_total - s2.discount_amount) + s2.tax_amount) := by
  refine ⟨rfl, ucf_sub_total s items, ucf_grand_total s items, ?_⟩
  intro s2 db2 h
  obtain ⟨h1, h2, h3, h4⟩ := saleSave_ok_totals s items db s2 db2 h
  refine ⟨h1, ?_⟩
  rw [h2, ucf_grand_total, ← h1, ← h3, ← h4]

theorem c5_totals_witness :
    (saleItemSave exItemC5).total_price =
      exItemC5.quantity * exItemC5.unit_price_at_sale - exItemC5.discount_amount_item ∧
    c5OutSale.sub_total = (update_calculated_fields exSaleC5 [exItemC5]).sub_total ∧
    c5OutSale.grand_total = (c5OutSale.sub_total - c5OutSale.discount_amount) +
      c5OutSale.tax_amount :=
  ⟨(c5_totals exItemC5 exSaleC5 [exItemC5] []).1,
   ((c5_totals exItemC5 exSaleC5 [exItemC5] []).2.2.2 c5OutSale [] (by decide)).1,
   ((c5_totals exItemC5 exSaleC5 [exItemC5] []).2.2.2 c5OutSale [] (by decide)).2⟩

/-- Claim C9: sale line quantities are not validated to be positive: a
persisted sale entering COMPLETED with a tracked line of quantity -3
passes the deduction without any insufficient-stock error both against a
zero stock level and against a missing stock row, and in the zero-level
case subtracting the negative quantity raises the stock level to 3, the
absolute value. -/
theorem c9_negative_quantity_inflates_stock :
    saleSave c9Sale [c9Item] c9DbZero = Except.ok (c9OutSale, [(⟨0, 1⟩, 3)]) ∧
    stockLookup (saleSaveFinal c9Sale [c9Item] c9DbZero).2 ⟨0, 1⟩ = some 3 ∧
    saleSave c9Sale [c9Item] [] = Except.ok (c9OutSale, []) := by
  decide

theorem ledgerPost_fst (st : CustomerLedgerState) (etype : EntryType) (d cr : Option Int) :
    (ledgerPost st etype d cr).1 =
      ⟨(applyBalanceChange st.customer (d.getD 0 - cr.getD 0)).1,
       st.entries ++ [⟨st.next_id, etype, d.getD 0, cr.getD 0⟩], st.next_id + 1⟩ := rfl

/-- Claim C3: when a persisted sale enters COMPLETED (performing the stock
deduction), the payment type is ON_ACCOUNT and a customer is set, the
same transaction that persists the sale posts an Invoice-type ledger
entry whose debit equals the sale's committed grand_total against that
customer, increasing the customer's balance by grand_total. -/
theorem c3_on_account_invoice (s : Sale) (items : List SaleItemRec) (db : StockDB)
    (led : CustomerLedgerState) (cid : Nat) (s2 : Sale) (db2 : StockDB)
    (led2 : CustomerLedgerState)
    (hp : s.persisted = true)
    (hsc : s.original_status ≠ s.status)
    (hc : s.status = SaleStatus.COMPLETED)
    (hd : s.stock_deducted = false)
    (hpay : s.payment_type = some PaymentType.ON_ACCOUNT)
    (hcust : s.customer = some cid)
    (h : saleSaveWithLedger s items db led = Except.ok (s2, db2, led2)) :
    led2.entries = led.entries ++
      [⟨led.next_id, EntryType.SALE_INVOICE, s2.grand_total, 0⟩] ∧
    led2.customer.current_balance = led.customer.current_balance + s2.grand_total := by
  have hcond : ((update_calculated_fields s items).persisted = false ∧
      (update_calculated_fields s items).status = SaleStatus.COMPLETED ∧
      (update_calculated_fields s items).stock_deducted = false) ∨
      ((update_calculated_fields s items).original_status ≠
        (update_calculated_fields s items).status ∧
       (update_calculated_fields s items).status = SaleStatus.COMPLETED ∧
       (update_calculated_fields s items).stock_deducted = false) := by
    right
    refine ⟨?_, ?_, ?_⟩
    · simpa using hsc
    · simpa using hc
    · simpa using hd
  simp only [saleSaveWithLedger] at h
  rw [if_pos hcond] at h
  cases hdd : deductItems s.branch db items with
  | error e =>
      have hpd : perform_stock_deduction (update_calculated_fields s items) items db =
          Except.error e := by
        simp [perform_stock_deduction, hp, hdd]
      rw [hpd] at h
      simp at h
  | ok dbx =>
      have hpd : perform_stock_deduction (update_calculated_fields s items) items db =
          Except.ok ({ update_calculated_fields s items with stock_deducted := true }, dbx) := by
        simp [perform_stock_deduction, hp, hdd]
      rw [hpd] at h
      simp only [hpay, hcust] at h
      rw [if_pos (by simp [hpay, hcust])] at h
      simp only [Except.ok.injEq, Prod.mk.injEq] at h
      obtain ⟨hs2, hdb2, hled2⟩ := h
      subst hs2 hled2
      rw [ledgerPost_fst]
      constructor
      · simp
      · rw [applyBalanceChange_balance]
        simp

theorem c3_on_account_invoice_witness :
    c3OutLed.entries = exLedgerState.entries ++
      [⟨exLedgerState.next_id, EntryType.SALE_INVOICE, c3OutSale.grand_total, 0⟩] ∧
    c3OutLed.customer.current_balance =
      exLedgerState.customer.current_balance + c3OutSale.grand_total :=
  c3_on_account_invoice c3Sale [c3Item] c3Db exLedgerState 7 c3OutSale c3OutDb c3OutLed
    (by decide) (by decide) (by decide) (by decide) (by decide) (by decide) (by decide)

theorem stockLookup_update_self (k : StockKey) (x : Int) :
    ∀ (db : StockDB) (q0 : Int), stockLookup db k = some q0 →
      stockLookup (stockUpdate db k x) k = some x
  | [], q0, h => by simp [stockLookup] at h
  | p :: rest, q0, h => by
      by_cases hk : (p.1 == k) = true
      · simp [stockLookup, stockUpdate, List.find?, hk]
      · rw [Bool.not_eq_true] at hk
        simp only [stockLookup, List.find?, hk] at h
        simp only [stockLookup, stockUpdate, List.map_cons, hk, Bool.false_eq_true,
          if_false, List.find?]
        have ih := stockLookup_update_self k x rest q0 (by simpa [stockLookup] using h)
        simpa [stockLookup, stockUpdate] using ih

theorem stockLookup_create_self (k : StockKey) (x : Int) :
    ∀ (db : StockDB), stockLookup db k = none →
      stockLookup (stockCreate db k x) k = some x
  | [], _ => by simp [stockLookup, stockCreate, List.find?]
  | p :: rest, h => by
      by_cases hk : (p.1 == k) = true
      · simp [stockLookup, List.find?, hk] at h
      · rw [Bool.not_eq_true] at hk
        simp only [stockLookup, List.find?, hk] at h
        simp only [stockCreate, List.cons_append, stockLookup, List.find?, hk,
          Bool.false_eq_true]
        have ih := stockLookup_create_self k x rest (by simpa [stockLookup] using h)
        simpa [stockLookup, stockCreate] using ih

theorem stockLookup_grnProcessItem (branch : Nat) (db : StockDB) (it : GRNItemRec)
    (ht : it.product.is_inventory_tracked = true) :
    stockLookup (grnProcessItem branch db it) ⟨branch, it.product.pid⟩ =
      some ((stockLookup db ⟨branch, it.product.pid⟩).getD 0 + it.quantity_received) := by
  unfold grnProcessItem
  rw [ht]
  cases hl : stockLookup db ⟨branch, it.product.pid⟩ with
  | some q =>
      simp only [Option.getD_some, Bool.true_eq_false, if_false]
      exact stockLookup_update_self _ _ db q hl
  | none =>
      simp only [Option.getD_none, Bool.true_eq_false, if_false]
      have := stockLookup_create_self ⟨branch, it.product.pid⟩ (0 + it.quantity_received) db hl
      simpa using this

theorem stockLookup_grnRevertItem (branch : Nat) (db : StockDB) (it : GRNItemRec) (q : Int)
    (ht : it.product.is_inventory_tracked = true)
    (hl : stockLookup db ⟨branch, it.product.pid⟩ = some q) :
    stockLookup (grnRevertItem branch db it) ⟨branch, it.product.pid⟩ =
      some (q - it.quantity_received) := by
  unfold grnRevertItem
  rw [ht]
  simp only [hl, Bool.true_eq_false, if_false]
  exact stockLookup_update_self _ _ db q hl

theorem grnRevertItem_absent (branch : Nat) (db : StockDB) (it : GRNItemRec)
    (hl : stockLookup db ⟨branch, it.product.pid⟩ = none) :
    grnRevertItem branch db it = db := by
  unfold grnRevertItem
  by_cases ht : it.product.is_inventory_tracked = false
  · rw [ht]; simp
  · rw [Bool.not_eq_false] at ht
    rw [ht]
    simp [hl]

/-- Claim C6: a GRN save adds each inventory-tracked line's
quantity_received to the (branch, product) stock level (creating the row
at zero if absent) exactly when the status becomes COMPLETED (a new
receipt created COMPLETED, or an existing receipt changing status to
COMPLETED); it subtracts each tracked line's quantity from the existing
stock level exactly when the previous status was COMPLETED and the new
one is not (a missing row is left untouched); every other transition
leaves the stock table unchanged. -/
theorem c6_grn_stock_update_rules :
    (∀ (g : GRN) (items : List GRNItemRec) (db : StockDB),
      ((g.original_status ≠ g.status ∧ g.status = GRNStatus.COMPLETED) ∨
        (g.original_status = g.status ∧ g.persisted = false ∧
         g.status = GRNStatus.COMPLETED) →
        (grnSave g items db).2 = items.foldl (grnProcessItem g.branch) db) ∧
      (g.original_status = GRNStatus.COMPLETED ∧ g.status ≠ GRNStatus.COMPLETED →
        (grnSave g items db).2 = items.foldl (grnRevertItem g.branch) db) ∧
      (¬((g.original_status ≠ g.status ∧ g.status = GRNStatus.COMPLETED) ∨
          (g.original_status = g.status ∧ g.persisted = false ∧
           g.status = GRNStatus.COMPLETED)) ∧
       ¬(g.original_status = GRNStatus.COMPLETED ∧ g.status ≠ GRNStatus.COMPLETED) →
        (grnSave g items db).2 = db)) ∧
    (∀ (branch : Nat) (db : StockDB) (it : GRNItemRec),
      it.product.is_inventory_tracked = true →
      stockLookup (grnProcessItem branch db it) ⟨branch, it.product.pid⟩ =
        some ((stockLookup db ⟨branch, it.product.pid⟩).getD 0 + it.quantity_received)) ∧
    (∀ (branch : Nat) (db : StockDB) (it : GRNItemRec) (q : Int),
      it.product.is_inventory_tracked = true →
      stockLookup db ⟨branch, it.product.pid⟩ = some q →
      stockLookup (grnRevertItem branch db it) ⟨branch, it.product.pid⟩ =
        some (q - it.quantity_received)) ∧
    (∀ (branch : Nat) (db : StockDB) (it : GRNItemRec),
      stockLookup db ⟨branch, it.product.pid⟩ = none →
      grnRevertItem branch db it = db) := by
  refine ⟨?_, stockLookup_grnProcessItem, stockLookup_grnRevertItem, grnRevertItem_absent⟩
  intro g items db
  refine ⟨?_, ?_, ?_⟩
  · rintro (⟨hne, hcomp⟩ | ⟨heq, hnew, hcomp⟩)
    · simp only [grnSave, process_stock_update]
      rw [if_pos hne, if_pos hcomp]
      simp [hcomp]
    · simp [grnSave, process_stock_update, heq, hnew, hcomp]
  · rintro ⟨ho, hne⟩
    have hch : g.original_status ≠ g.status := by
      rw [ho]; exact fun hh => hne hh.symm
    simp only [grnSave, revert_stock_update]
    rw [if_pos hch, if_neg hne, if_pos ⟨ho, hne⟩]
  · rintro ⟨hnota, hnotb⟩
    by_cases hch : g.original_status = g.status
    · have hno : ¬(g.persisted = false ∧ g.status = GRNStatus.COMPLETED) :=
        fun hpair => hnota (Or.inr ⟨hch, hpair.1, hpair.2⟩)
      simp only [grnSave]
      rw [if_neg (by simp [hch]), if_neg hno]
    · have hnc : ¬(g.status = GRNStatus.COMPLETED) :=
        fun h2 => hnota (Or.inl ⟨hch, h2⟩)
      simp only [grnSave]
      rw [if_pos hch, if_neg hnc, if_neg (fun hpair => hnotb ⟨hpair.1, hpair.2⟩)]

theorem c6_grn_stock_update_rules_witness :
    (grnSave c6GRN [c6Item] []).2 = [c6Item].foldl (grnProcessItem c6GRN.branch) [] ∧
    (grnSave c6RevGRN [c6Item] c6Db2).2 =
      [c6Item].foldl (grnRevertItem c6RevGRN.branch) c6Db2 ∧
    (grnSave c6NoopGRN [c6Item] c6Db2).2 = c6Db2 ∧
    stockLookup (grnProcessItem 0 c6Db2 c6Item) ⟨0, c6Item.product.pid⟩ =
      some ((stockLookup c6Db2 ⟨0, c6Item.product.pid⟩).getD 0 + c6Item.quantity_received) ∧
    stockLookup (grnRevertItem 0 c6Db2 c6Item) ⟨0, c6Item.product.pid⟩ =
      some (9 - c6Item.quantity_received) ∧
    grnRevertItem 0 [] c6Item = [] :=
  ⟨(c6_grn_stock_update_rules.1 c6GRN [c6Item] []).1 (Or.inl ⟨by decide, by decide⟩),
   (c6_grn_stock_update_rules.1 c6RevGRN [c6Item] c6Db2).2.1 ⟨by decide, by decide⟩,
   (c6_grn_stock_update_rules.1 c6NoopGRN [c6Item] c6Db2).2.2 ⟨by decide, by decide⟩,
   c6_grn_stock_update_rules.2.1 0 c6Db2 c6Item (by decide),
   c6_grn_stock_update_rules.2.2.1 0 c6Db2 c6Item 9 (by decide) (by decide),
   c6_grn_stock_update_rules.2.2.2 0 [] c6Item (by decide)⟩

/-- Claim C8: a sale or receipt line whose product is not
inventory-tracked modifies no StockLevel row: the deduction, restock,
receipt-completion and receipt-reversal steps each return the stock table
unchanged on such a line. -/
theorem c8_non_tracked_frame :
    (∀ (branch : Nat) (db : StockDB) (it : SaleItemRec),
      it.product.is_inventory_tracked = false → deductItem branch db it = Except.ok db) ∧
    (∀ (branch : Nat) (db : StockDB) (it : SaleItemRec),
      it.product.is_inventory_tracked = false → restockItem branch db it = db) ∧
    (∀ (branch : Nat) (db : StockDB) (it : GRNItemRec),
      it.product.is_inventory_tracked = false → grnProcessItem branch db it = db) ∧
    (∀ (branch : Nat) (db : StockDB) (it : GRNItemRec),
      it.product.is_inventory_tracked = false → grnRevertItem branch db it = db) := by
  refine ⟨?_, ?_, ?_, ?_⟩ <;> intro branch db it ht <;>
    simp [deductItem, restockItem, grnProcessItem, grnRevertItem, ht]

theorem c8_non_tracked_frame_witness :
    deductItem 0 c8Db c8SaleItem = Except.ok c8Db ∧
    restockItem 0 c8Db c8SaleItem = c8Db ∧
    grnProcessItem 0 c8Db c8GRNItem = c8Db ∧
    grnRevertItem 0 c8Db c8GRNItem = c8Db :=
  ⟨c8_non_tracked_frame.1 0 c8Db c8SaleItem (by decide),
   c8_non_tracked_frame.2.1 0 c8Db c8SaleItem (by decide),
   c8_non_tracked_frame.2.2.1 0 c8Db c8GRNItem (by decide),
   c8_non_tracked_frame.2.2.2 0 c8Db c8GRNItem (by decide)⟩

end LinuxPos
